import Mathlib

/-!
Shallow embedding of `src/static.ts` (the `useStatic` composition function,
its module-level `staticCache`, and the `writeFile` helper), together with
theorems about the resolution behaviour.

Modelling choices:
* JavaScript values that can be cached or held by the result handle are
  modelled by `JSValue`; JS truthiness is `truthy`.
* The module-level `staticCache : Record<string, any>` is an association
  list; assignment prepends, lookup takes the first match.
* Asynchronous outcomes (the `fetch` of the static JSON artifact, the
  caller-supplied factory promise, and the reactive values `key.value` /
  `param.value` the code reads at invocation and completion time of those
  promises) are supplied by a `ResolveEnv` record, so a single run of the
  watch handler or of the server-prefetch callback is a pure function of
  the state and that environment.
* A factory rejection is not caught anywhere in the source, so a run
  returns an `Option String`: `some e` means the rejection `e` propagates
  to the host framework.
-/

set_option autoImplicit false

/-- A JavaScript value, as far as the cache and the result handle care
(objects are modelled one level deep, with string-valued fields — enough
to exhibit truthiness, equality and serialization behaviour). -/
inductive JSValue where
  | null
  | bool (b : Bool)
  | num (n : Int)
  | str (s : String)
  | obj (fields : List (String × String))
deriving DecidableEq, Repr

/-- JS truthiness, as tested by `if (result.value)` in the source. -/
def truthy : JSValue → Bool
  | .null => false
  | .bool b => b
  | .num n => n != 0
  | .str s => s != ""
  | .obj _ => true

/-- Comma-separated serialization of an object's fields. -/
def stringifyFields : List (String × String) → String
  | [] => ""
  | [(k, v)] => "\"" ++ k ++ "\":\"" ++ v ++ "\""
  | (k, v) :: rest => "\"" ++ k ++ "\":\"" ++ v ++ "\"," ++ stringifyFields rest

/-- `JSON.stringify`, modelled for the `JSValue` fragment (host builtin). -/
def stringify : JSValue → String
  | .null => "null"
  | .bool true => "true"
  | .bool false => "false"
  | .num n => toString n
  | .str s => "\"" ++ s ++ "\""
  | .obj fs => "\x7b" ++ stringifyFields fs ++ "\x7d"

/-- The module-level `staticCache` object. -/
abbrev Cache := List (String × JSValue)

/-- Property read `staticCache[k]`. -/
def getCache : Cache → String → Option JSValue
  | [], _ => none
  | (k2, v) :: rest, k => if k2 = k then some v else getCache rest k

/-- Property assignment `staticCache[k] = v` (prepend = overwrite). -/
def setCache (c : Cache) (k : String) (v : JSValue) : Cache := (k, v) :: c

/-- The JS `in` operator: `k in staticCache`. -/
def memCache (c : Cache) (k : String) : Bool := (getCache c k).isSome

/-- Execution-context flags `process.client` / `process.static`. -/
structure Ctx where
  client : Bool
  isStatic : Bool
deriving DecidableEq, Repr

/-- Build-time constant `'<%= options.staticPath %>'`. -/
def staticPath : String := "<%= options.staticPath %>"

/-- Build-time constant `'<%= options.publicPath %>'`. -/
def defaultPublicPath : String := "<%= options.publicPath %>"

/-- `publicPath = window[globalContext].$config?.app?.cdnURL || default`:
JS `||` falls through on a falsy (empty or absent) `cdnURL`. -/
def publicPathOf (cdnURL : Option String) : String :=
  match cdnURL with
  | some u => if u = "" then defaultPublicPath else u
  | none => defaultPublicPath

/-- Strip one trailing slash (helper for the URL/path joins). -/
def withoutTrailingSlash (s : String) : String :=
  if s.endsWith "/" then s.dropRight 1 else s

/-- Strip one leading slash (helper for the URL/path joins). -/
def withoutLeadingSlash (s : String) : String :=
  if s.startsWith "/" then s.drop 1 else s

/-- Modelled from the `ufo` dependency: `joinURL(base, p)` joins two URL
segments with exactly one slash between them. -/
def joinURL (base p : String) : String :=
  if base = "" then p
  else if p = "" then base
  else withoutTrailingSlash base ++ "/" ++ withoutLeadingSlash p

/-- Modelled from Node's `path.join` for two plain segments. -/
def joinPath (a b : String) : String :=
  if a = "" then b
  else withoutTrailingSlash a ++ "/" ++ withoutLeadingSlash b

/-- The mutable state the source touches: the module cache, the reactive
result handle's current value, the attempted and the successful file
writes, and the console log. -/
structure StaticState where
  cache : Cache
  result : JSValue
  attempts : List (String × String)
  files : List (String × String)
  log : List String
deriving DecidableEq, Repr

/-- External calls made during a run: factory invocations (with their
`(param, key)` arguments) and network fetches (with their URL). -/
structure CallTrace where
  factoryCalls : List (String × String)
  fetchCalls : List String
deriving DecidableEq, Repr

deriving instance DecidableEq for Except

/-- Outcome of `fetch(...)` / `response.json()` for the static artifact. -/
inductive FetchOutcome where
  | ok (json : JSValue)
  | notOk
  | netError
  | badJson
deriving DecidableEq, Repr

/-- `true` on every outcome the source's `.catch(onFailure)` handles:
non-ok response, thrown network error, JSON parse failure. -/
def FetchOutcome.failed : FetchOutcome → Bool
  | .ok _ => false
  | _ => true

/-- Ambient resolution of the asynchronous steps of one run. -/
structure ResolveEnv where
  /-- outcome of the artifact fetch (static client path only) -/
  fetchOutcome : FetchOutcome
  /-- outcome of the caller-supplied factory promise -/
  factoryOutcome : Except String JSValue
  /-- `param.value` at the moment `onFailure` runs (fetch-fallback path) -/
  paramAtFactoryCall : String
  /-- `key.value` at the moment `onFailure` runs (fetch-fallback path) -/
  keyAtFactoryCall : String
  /-- `key.value` at the moment the factory promise resolves -/
  keyAtFactoryDone : String
deriving DecidableEq, Repr

/-- `const key = computed(() => `${keyBase}-${param.value}`)`. -/
def mkKey (keyBase p : String) : String := keyBase ++ "-" ++ p

/-- Default for the omitted `param` argument: `ref('')`. -/
def defaultParam : String := ""

/-- `if (result.value) staticCache[key.value] = result.value` — the
call-time pre-check that seeds the cache from the handle. -/
def preCheckSeed (c : Cache) (k : String) (handleValue : JSValue) : Cache :=
  if truthy handleValue then setCache c k handleValue else c

/-- The `writeFile` helper: skipped on the client or outside a static
build; otherwise one `writeFileSync` attempt, a thrown error being logged
and swallowed (`fsError = some e` models the throw). -/
def writeFile (ctx : Ctx) (key value : String) (fsError : Option String)
    (st : StaticState) : StaticState :=
  if ctx.client || !ctx.isStatic then st
  else
    let path := joinPath staticPath (key ++ ".json")
    let st := { st with attempts := st.attempts ++ [(path, value)] }
    match fsError with
    | none => { st with files := st.files ++ [(path, value)] }
    | some e => { st with log := st.log ++ [e] }

/-- One run of `onFailure`: invokes the factory with `(param.value,
key.value)` read at invocation time (`pNow`, `kNow`); when the promise
resolves, the `.then` callback stores the result in the cache under
`key.value` read at completion time (`kDone`) and in the result handle.
A rejection leaves the state untouched and propagates. -/
def onFailureRun (pNow kNow kDone : String) (fo : Except String JSValue)
    (st : StaticState) : StaticState × List (String × String) × Option String :=
  match fo with
  | .ok r => ({ st with cache := setCache st.cache kDone r, result := r }, [(pNow, kNow)], none)
  | .error e => (st, [(pNow, kNow)], some e)

/-- One firing of the client watch handler with the new key `k` (and the
matching `param.value` `p`): cache hit copies the cached value, a miss
outside a static build calls `onFailure` synchronously, and a miss during
a static build fetches the artifact, falling back to `onFailure` on any
fetch failure (the `.then` of a successful fetch stores under the handler
argument `k` itself). -/
def clientHandler (isStatic : Bool) (publicPath p k : String) (env : ResolveEnv)
    (st : StaticState) : StaticState × CallTrace × Option String :=
  if memCache st.cache k then
    ({ st with result := (getCache st.cache k).getD .null }, ⟨[], []⟩, none)
  else if !isStatic then
    let out := onFailureRun p k env.keyAtFactoryDone env.factoryOutcome st
    (out.1, ⟨out.2.1, []⟩, out.2.2)
  else
    let url := joinURL publicPath (k ++ ".json")
    match env.fetchOutcome with
    | .ok json =>
        ({ st with cache := setCache st.cache k json, result := json }, ⟨[], [url]⟩, none)
    | _ =>
        let out := onFailureRun env.paramAtFactoryCall env.keyAtFactoryCall
          env.keyAtFactoryDone env.factoryOutcome st
        (out.1, ⟨out.2.1, [url]⟩, out.2.2)

/-- One run of the `onServerPrefetch` callback: captures `[key.value,
param.value]` as `[kNow, pNow]` before awaiting, awaits the factory, then
stores the result into the handle and into the cache under the captured
key and calls `writeFile`. A rejection aborts before any store. -/
def serverPrefetchRun (ctx : Ctx) (kNow pNow : String) (fo : Except String JSValue)
    (fsError : Option String) (st : StaticState) :
    StaticState × CallTrace × Option String :=
  match fo with
  | .ok r =>
      let st1 := { st with result := r, cache := setCache st.cache kNow r }
      (writeFile ctx kNow (stringify r) fsError st1, ⟨[(pNow, kNow)], []⟩, none)
  | .error e => (st, ⟨[(pNow, kNow)], []⟩, some e)

/-- The body of `useStatic` for one call, up to and including the first
(immediate) firing of the client watcher, or the server branch with its
prefetch callback run. `initResult` is the value `ssrRef` hands back
(inline server-rendered state, or `null`). The final `Bool` records
whether a server prefetch step was registered. -/
def useStaticSetup (ctx : Ctx) (cdnURL : Option String) (keyBase p : String)
    (initResult : JSValue) (env : ResolveEnv) (fsError : Option String)
    (cache0 : Cache) : StaticState × CallTrace × Option String × Bool :=
  let k := mkKey keyBase p
  let st0 : StaticState :=
    { cache := preCheckSeed cache0 k initResult, result := initResult,
      attempts := [], files := [], log := [] }
  if ctx.client then
    let out := clientHandler ctx.isStatic (publicPathOf cdnURL) p k env st0
    (out.1, out.2.1, out.2.2, false)
  else if memCache st0.cache k then
    ({ st0 with result := (getCache st0.cache k).getD .null }, ⟨[], []⟩, none, false)
  else
    let out := serverPrefetchRun ctx k p env.factoryOutcome fsError st0
    (out.1, out.2.1, out.2.2, true)

theorem getCache_setCache_self (c : Cache) (k : String) (v : JSValue) :
    getCache (setCache c k v) k = some v := by
  simp [getCache, setCache]

theorem memCache_setCache_self (c : Cache) (k : String) (v : JSValue) :
    memCache (setCache c k v) k = true := by
  simp [memCache, getCache_setCache_self]

theorem clientHandler_hit (s : Bool) (pub p k : String) (env : ResolveEnv)
    (st : StaticState) (h : memCache st.cache k = true) :
    clientHandler s pub p k env st =
      ({ st with result := (getCache st.cache k).getD .null }, ⟨[], []⟩, none) := by
  simp [clientHandler, h]

theorem clientHandler_populates (s : Bool) (pub p k : String) (r : JSValue)
    (e : ResolveEnv) (st : StaticState) (hok : e.factoryOutcome = .ok r)
    (hdone : e.keyAtFactoryDone = k) :
    memCache (clientHandler s pub p k e st).1.cache k = true := by
  by_cases hmem : memCache st.cache k = true
  · simp [clientHandler_hit _ _ _ _ _ _ hmem, hmem]
  · cases s <;> cases hfo : e.fetchOutcome <;>
      simp [clientHandler, hmem, hfo, onFailureRun, hok, hdone, memCache_setCache_self]

/-- C5: the derived key is exactly `keyBase ++ "-" ++ param`, a function of
`keyBase` and `param` alone, and the omitted param defaults to `""`, giving
the key `keyBase ++ "-"`. -/
theorem mkKey_spec (keyBase p : String) :
    mkKey keyBase p = keyBase ++ "-" ++ p ∧ mkKey keyBase defaultParam = keyBase ++ "-" := by
  refine ⟨rfl, ?_⟩
  simp [mkKey, defaultParam]

/-- C1: if the key is already cached when resolution starts, the result
handle is set to exactly the cached value with no factory call and no
fetch (on the client via the watch handler and on the server alike, `ctx`
being arbitrary), and a second resolution of a key whose first resolution
populated the cache makes no factory call and no fetch. -/
theorem useStatic_cache_hit_idempotent (ctx : Ctx) (cdnURL : Option String)
    (keyBase p : String) (v : JSValue) (env : ResolveEnv) (fsError : Option String)
    (cache0 : Cache) (hhit : getCache cache0 (mkKey keyBase p) = some v) :
    ((useStaticSetup ctx cdnURL keyBase p .null env fsError cache0).1.result = v ∧
     (useStaticSetup ctx cdnURL keyBase p .null env fsError cache0).1.cache = cache0 ∧
     (useStaticSetup ctx cdnURL keyBase p .null env fsError cache0).2.1 =
       (⟨[], []⟩ : CallTrace) ∧
     (useStaticSetup ctx cdnURL keyBase p .null env fsError cache0).2.2.1 = none ∧
     (useStaticSetup ctx cdnURL keyBase p .null env fsError cache0).2.2.2 = false) ∧
    (∀ (s : Bool) (pub p2 k : String) (r : JSValue) (e e' : ResolveEnv)
       (st : StaticState), e.factoryOutcome = .ok r → e.keyAtFactoryDone = k →
       (clientHandler s pub p2 k e' (clientHandler s pub p2 k e st).1).2.1 =
         (⟨[], []⟩ : CallTrace)) := by
  obtain ⟨cl, sst⟩ := ctx
  have hmem : memCache cache0 (mkKey keyBase p) = true := by simp [memCache, hhit]
  constructor
  · cases cl <;>
      simp [useStaticSetup, preCheckSeed, truthy, clientHandler, hmem, hhit]
  · intro s pub p2 k r e e' st hok hdone
    have hmem2 : memCache (clientHandler s pub p2 k e st).1.cache k = true :=
      clientHandler_populates s pub p2 k r e st hok hdone
    simp [clientHandler_hit _ _ _ _ e' _ hmem2]

/-- Witness for C1 at concrete inputs. -/
theorem useStatic_cache_hit_idempotent_witness :
    (useStaticSetup ⟨true, false⟩ none "post" "42" .null
        ⟨.notOk, .ok .null, "", "", ""⟩ none [("post-42", .obj [("title", "B")])]
      ).1.result = .obj [("title", "B")] :=
  (useStatic_cache_hit_idempotent ⟨true, false⟩ none "post" "42"
    (.obj [("title", "B")]) ⟨.notOk, .ok .null, "", "", ""⟩ none
    [("post-42", .obj [("title", "B")])] (by decide)).1.1

/-- C2: on the client in a static build, a cache miss fires exactly one
fetch of `joinURL(publicPath, key ++ ".json")`; an ok response stores the
JSON body in the cache under the key and in the handle with no factory
call; on non-ok response, network error or parse failure exactly one
factory invocation follows, and the propagated outcome is the factory's
alone — the fetch failure itself is never surfaced. -/
theorem clientStatic_fetch_spec (pub p k : String) (env : ResolveEnv)
    (st : StaticState) (hmiss : getCache st.cache k = none) :
    (clientHandler true pub p k env st).2.1.fetchCalls =
      [joinURL pub (k ++ ".json")] ∧
    (∀ json, env.fetchOutcome = .ok json →
      (clientHandler true pub p k env st).2.1.factoryCalls = [] ∧
      getCache (clientHandler true pub p k env st).1.cache k = some json ∧
      (clientHandler true pub p k env st).1.result = json ∧
      (clientHandler true pub p k env st).2.2 = none) ∧
    (env.fetchOutcome.failed = true →
      (clientHandler true pub p k env st).2.1.factoryCalls =
        [(env.paramAtFactoryCall, env.keyAtFactoryCall)] ∧
      (clientHandler true pub p k env st).2.2 =
        (match env.factoryOutcome with | .ok _ => none | .error e => some e)) := by
  have hmem : memCache st.cache k = false := by simp [memCache, hmiss]
  refine ⟨?_, ?_, ?_⟩
  · cases hfo : env.fetchOutcome <;>
      simp [clientHandler, hmem, hfo, onFailureRun, getCache_setCache_self]
  · intro json hfo
    simp [clientHandler, hmem, hfo, getCache_setCache_self]
  · intro hfail
    cases hfo : env.fetchOutcome <;> simp [hfo, FetchOutcome.failed] at hfail ⊢ <;>
      cases hout : env.factoryOutcome <;>
        simp [clientHandler, hmem, hfo, onFailureRun, hout]

/-- Witness for C2: a non-ok response falls back to one factory call. -/
theorem clientStatic_fetch_spec_witness :
    (clientHandler true "/" "1" "a-1" ⟨.notOk, .ok (.num 5), "1", "a-1", "a-1"⟩
      ⟨[], .null, [], [], []⟩).2.1.factoryCalls = [("1", "a-1")] :=
  ((clientStatic_fetch_spec "/" "1" "a-1" ⟨.notOk, .ok (.num 5), "1", "a-1", "a-1"⟩
    ⟨[], .null, [], [], []⟩ (by decide)).2.2 (by decide)).1

/-- C3: on the client outside a static build, a cache miss makes exactly
one factory invocation with the current `(param, key)` and no fetch; when
the factory resolves (the key unchanged meanwhile), the value is stored
in the cache under that key and in the result handle. -/
theorem clientNonStatic_factory_spec (cdnURL : Option String) (keyBase p : String)
    (env : ResolveEnv) (fsError : Option String) (cache0 : Cache)
    (hmiss : getCache cache0 (mkKey keyBase p) = none) :
    (useStaticSetup ⟨true, false⟩ cdnURL keyBase p .null env fsError cache0).2.1.factoryCalls =
      [(p, mkKey keyBase p)] ∧
    (useStaticSetup ⟨true, false⟩ cdnURL keyBase p .null env fsError cache0).2.1.fetchCalls = [] ∧
    (∀ r, env.factoryOutcome = .ok r → env.keyAtFactoryDone = mkKey keyBase p →
      getCache (useStaticSetup ⟨true, false⟩ cdnURL keyBase p .null env fsError
          cache0).1.cache (mkKey keyBase p) = some r ∧
      (useStaticSetup ⟨true, false⟩ cdnURL keyBase p .null env fsError cache0).1.result = r) := by
  have hmem : memCache cache0 (mkKey keyBase p) = false := by simp [memCache, hmiss]
  refine ⟨?_, ?_, ?_⟩
  · cases hout : env.factoryOutcome <;>
      simp [useStaticSetup, preCheckSeed, truthy, clientHandler, hmem, onFailureRun, hout]
  · cases hout : env.factoryOutcome <;>
      simp [useStaticSetup, preCheckSeed, truthy, clientHandler, hmem, onFailureRun, hout]
  · intro r hout hdone
    simp [useStaticSetup, preCheckSeed, truthy, clientHandler, hmem, onFailureRun, hout,
      hdone, getCache_setCache_self]

/-- Witness for C3: the spec's scenario — `keyBase = "post"`, `param = "42"`,
resolved value an object, landing in the handle and in `cache["post-42"]`. -/
theorem clientNonStatic_factory_spec_witness :
    getCache (useStaticSetup ⟨true, false⟩ none "post" "42" .null
        ⟨.notOk, .ok (.obj [("title", "A")]), "42", "post-42", "post-42"⟩ none
        []).1.cache (mkKey "post" "42") = some (.obj [("title", "A")]) ∧
    (useStaticSetup ⟨true, false⟩ none "post" "42" .null
        ⟨.notOk, .ok (.obj [("title", "A")]), "42", "post-42", "post-42"⟩ none
        []).2.1.factoryCalls = [("42", "post-42")] :=
  ⟨((clientNonStatic_factory_spec none "post" "42"
      ⟨.notOk, .ok (.obj [("title", "A")]), "42", "post-42", "post-42"⟩ none []
      (by decide)).2.2 (.obj [("title", "A")]) (by decide) (by decide)).1,
   (clientNonStatic_factory_spec none "post" "42"
      ⟨.notOk, .ok (.obj [("title", "A")]), "42", "post-42", "post-42"⟩ none []
      (by decide)).1⟩

/-- C4: on the server a cache miss registers a prefetch step that invokes
the factory exactly once with the captured `(param, key)`, stores the
resolved value into the handle and into the cache under the captured key,
and writes `<key>.json` to the static output directory only under a
static build and a non-throwing file system; outside a static build no
write is attempted, and `writeFile` is a no-op on the client. -/
theorem serverMiss_prefetch_spec (sst : Bool) (cdnURL : Option String)
    (keyBase p : String) (env : ResolveEnv) (fsError : Option String)
    (cache0 : Cache) (hmiss : getCache cache0 (mkKey keyBase p) = none) :
    (useStaticSetup ⟨false, sst⟩ cdnURL keyBase p .null env fsError cache0).2.2.2 = true ∧
    (useStaticSetup ⟨false, sst⟩ cdnURL keyBase p .null env fsError cache0).2.1.factoryCalls =
      [(p, mkKey keyBase p)] ∧
    (useStaticSetup ⟨false, sst⟩ cdnURL keyBase p .null env fsError cache0).2.1.fetchCalls = [] ∧
    (∀ r, env.factoryOutcome = .ok r →
      (useStaticSetup ⟨false, sst⟩ cdnURL keyBase p .null env fsError cache0).1.result = r ∧
      getCache (useStaticSetup ⟨false, sst⟩ cdnURL keyBase p .null env fsError
          cache0).1.cache (mkKey keyBase p) = some r ∧
      (sst = true → fsError = none →
        (useStaticSetup ⟨false, sst⟩ cdnURL keyBase p .null env fsError cache0).1.files =
          [(joinPath staticPath (mkKey keyBase p ++ ".json"), stringify r)]) ∧
      (sst = false →
        (useStaticSetup ⟨false, sst⟩ cdnURL keyBase p .null env fsError cache0).1.files = [] ∧
        (useStaticSetup ⟨false, sst⟩ cdnURL keyBase p .null env fsError
            cache0).1.attempts = [])) ∧
    (∀ (c : Ctx) (k2 v2 : String) (fe : Option String) (st2 : StaticState),
      c.client = true → writeFile c k2 v2 fe st2 = st2) := by
  have hmem : memCache cache0 (mkKey keyBase p) = false := by simp [memCache, hmiss]
  refine ⟨?_, ?_, ?_, ?_, ?_⟩
  · simp [useStaticSetup, preCheckSeed, truthy, hmem]
  · cases hout : env.factoryOutcome <;>
      simp [useStaticSetup, preCheckSeed, truthy, hmem, serverPrefetchRun, hout, writeFile]
  · cases hout : env.factoryOutcome <;> cases sst <;> cases fsError <;>
      simp [useStaticSetup, preCheckSeed, truthy, hmem, serverPrefetchRun, hout, writeFile]
  · intro r hout
    refine ⟨?_, ?_, ?_, ?_⟩
    · cases sst <;> cases fsError <;>
        simp [useStaticSetup, preCheckSeed, truthy, hmem, serverPrefetchRun, hout, writeFile]
    · cases sst <;> cases fsError <;>
        simp [useStaticSetup, preCheckSeed, truthy, hmem, serverPrefetchRun, hout, writeFile,
          getCache_setCache_self]
    · intro hs hf
      subst hs hf
      simp [useStaticSetup, preCheckSeed, truthy, hmem, serverPrefetchRun, hout, writeFile]
    · intro hs
      subst hs
      cases fsError <;>
        simp [useStaticSetup, preCheckSeed, truthy, hmem, serverPrefetchRun, hout, writeFile]
  · intro c k2 v2 fe st2 hc
    simp [writeFile, hc]

/-- Witness for C4: static server build, successful factory, write lands. -/
theorem serverMiss_prefetch_spec_witness :
    (useStaticSetup ⟨false, true⟩ none "a" "" .null
        ⟨.notOk, .ok (.num 7), "", "", ""⟩ none []).1.files =
      [(joinPath staticPath (mkKey "a" "" ++ ".json"), stringify (.num 7))] :=
  ((((serverMiss_prefetch_spec true none "a" "" ⟨.notOk, .ok (.num 7), "", "", ""⟩
    none [] (by decide)).2.2.2.1 (.num 7) (by decide)).2.2).1 rfl rfl)

/-- C7: a factory rejection is propagated unmodified (the very error, on
every path that invokes the factory), is not retried (exactly one factory
call), leaves the result handle `null` and leaves the cache without an
entry for the key — on the client (static build with failed fetch, or
non-static build) and on the server alike. -/
theorem factory_rejection_spec (ctx : Ctx) (cdnURL : Option String)
    (keyBase p e : String) (env : ResolveEnv) (fsError : Option String)
    (cache0 : Cache) (hmiss : getCache cache0 (mkKey keyBase p) = none)
    (hrej : env.factoryOutcome = .error e) (hfetch : env.fetchOutcome.failed = true) :
    (useStaticSetup ctx cdnURL keyBase p .null env fsError cache0).2.2.1 = some e ∧
    (useStaticSetup ctx cdnURL keyBase p .null env fsError cache0).1.result = .null ∧
    getCache (useStaticSetup ctx cdnURL keyBase p .null env fsError
        cache0).1.cache (mkKey keyBase p) = none ∧
    (useStaticSetup ctx cdnURL keyBase p .null env fsError cache0).1.cache = cache0 ∧
    (useStaticSetup ctx cdnURL keyBase p .null env fsError
        cache0).2.1.factoryCalls.length = 1 := by
  obtain ⟨cl, sst⟩ := ctx
  have hmem : memCache cache0 (mkKey keyBase p) = false := by simp [memCache, hmiss]
  cases cl <;> cases sst <;> cases hfo : env.fetchOutcome <;>
    simp [hfo, FetchOutcome.failed] at hfetch ⊢ <;>
      simp [useStaticSetup, preCheckSeed, truthy, clientHandler, hmem, hmiss,
        onFailureRun, serverPrefetchRun, hrej, hfo]

/-- Witness for C7 at a concrete rejection. -/
theorem factory_rejection_spec_witness :
    (useStaticSetup ⟨true, true⟩ none "a" "1" .null
        ⟨.netError, .error "boom", "1", "a-1", "a-1"⟩ none []).2.2.1 = some "boom" :=
  (factory_rejection_spec ⟨true, true⟩ none "a" "1" "boom"
    ⟨.netError, .error "boom", "1", "a-1", "a-1"⟩ none [] (by decide) (by decide)
    (by decide)).1

/-- C8: on the server under a static build, a successful factory
resolution attempts exactly one write of `<key>.json` with the serialized
value; a thrown write error is caught and logged, produces no file,
propagates nothing, and leaves the result handle value and the cache
entry exactly as in the successful-write run. -/
theorem serverStatic_write_failure_spec (cdnURL : Option String)
    (keyBase p emsg : String) (r : JSValue) (env : ResolveEnv) (cache0 : Cache)
    (hmiss : getCache cache0 (mkKey keyBase p) = none)
    (hok : env.factoryOutcome = .ok r) :
    (useStaticSetup ⟨false, true⟩ cdnURL keyBase p .null env none cache0).1.attempts =
      [(joinPath staticPath (mkKey keyBase p ++ ".json"), stringify r)] ∧
    (useStaticSetup ⟨false, true⟩ cdnURL keyBase p .null env (some emsg) cache0).1.attempts =
      [(joinPath staticPath (mkKey keyBase p ++ ".json"), stringify r)] ∧
    (useStaticSetup ⟨false, true⟩ cdnURL keyBase p .null env (some emsg) cache0).1.files = [] ∧
    (useStaticSetup ⟨false, true⟩ cdnURL keyBase p .null env (some emsg) cache0).1.log =
      [emsg] ∧
    (useStaticSetup ⟨false, true⟩ cdnURL keyBase p .null env (some emsg) cache0).2.2.1 =
      none ∧
    (useStaticSetup ⟨false, true⟩ cdnURL keyBase p .null env (some emsg) cache0).1.result =
      (useStaticSetup ⟨false, true⟩ cdnURL keyBase p .null env none cache0).1.result ∧
    (useStaticSetup ⟨false, true⟩ cdnURL keyBase p .null env (some emsg) cache0).1.cache =
      (useStaticSetup ⟨false, true⟩ cdnURL keyBase p .null env none cache0).1.cache ∧
    (useStaticSetup ⟨false, true⟩ cdnURL keyBase p .null env (some emsg) cache0).1.result =
      r ∧
    getCache (useStaticSetup ⟨false, true⟩ cdnURL keyBase p .null env (some emsg)
        cache0).1.cache (mkKey keyBase p) = some r := by
  have hmem : memCache cache0 (mkKey keyBase p) = false := by simp [memCache, hmiss]
  refine ⟨?_, ?_, ?_, ?_, ?_, ?_, ?_, ?_, ?_⟩ <;>
    simp [useStaticSetup, preCheckSeed, truthy, hmem, serverPrefetchRun, hok, writeFile,
      getCache_setCache_self]

/-- Witness for C8 at a concrete throwing write. -/
theorem serverStatic_write_failure_spec_witness :
    (useStaticSetup ⟨false, true⟩ none "a" "1" .null
        ⟨.notOk, .ok (.str "x"), "1", "a-1", "a-1"⟩ (some "EACCES") []).1.log =
      ["EACCES"] :=
  (serverStatic_write_failure_spec none "a" "1" "EACCES" (.str "x")
    ⟨.notOk, .ok (.str "x"), "1", "a-1", "a-1"⟩ [] (by decide) (by decide)).2.2.2.1

/-- C9 as stated is false: the pre-check tests JS truthiness, not
non-emptiness, so the non-null (hence non-empty) handle value `0` is not
seeded into the cache. -/
theorem preCheck_nonEmpty_counterexample :
    JSValue.num 0 ≠ JSValue.null ∧ preCheckSeed [] "k-" (.num 0) = [] := by decide

/-- C9 (amended): at call time, before any resolution branch runs, a
truthy handle value is seeded into the cache under the current key, and a
falsy handle value (null included) leaves the cache untouched. -/
theorem preCheck_seed_spec (c : Cache) (k : String) (v : JSValue) :
    (truthy v = true → preCheckSeed c k v = setCache c k v ∧
      getCache (preCheckSeed c k v) k = some v) ∧
    (truthy v = false → preCheckSeed c k v = c) := by
  constructor
  · intro h
    simp [preCheckSeed, h, getCache_setCache_self]
  · intro h
    simp [preCheckSeed, h]

/-- Witness for C9 (amended): a truthy value is seeded, null is not. -/
theorem preCheck_seed_spec_witness :
    getCache (preCheckSeed [] "k-" (.str "x")) "k-" = some (.str "x") ∧
    preCheckSeed [] "k-" .null = [] :=
  ⟨((preCheck_seed_spec [] "k-" (.str "x")).1 (by decide)).2,
   (preCheck_seed_spec [] "k-" .null).2 (by decide)⟩

/-- C6 as stated is false: when the key changes from `"post-1"` to
`"post-2"` while the client factory promise is in flight, the completing
resolution stores under `key.value` read at completion time — the
currently displayed key `"post-2"` — and leaves its own stale key
`"post-1"` uncached, because `onFailure`'s `.then` callback reads the
live `key.value`, not the captured handler argument. -/
theorem stale_completion_counterexample :
    getCache (clientHandler false "/" "1" "post-1"
        ⟨.notOk, .ok (.str "v1"), "1", "post-1", "post-2"⟩
        ⟨[], .null, [], [], []⟩).1.cache "post-1" = none ∧
    getCache (clientHandler false "/" "1" "post-1"
        ⟨.notOk, .ok (.str "v1"), "1", "post-1", "post-2"⟩
        ⟨[], .null, [], [], []⟩).1.cache "post-2" = some (.str "v1") := by decide

/-- C6 (amended): a late artifact fetch stores under the watch handler's
captured key and a late server prefetch stores under the key captured
before awaiting, regardless of later key changes; but a late client
factory resolution stores the handle value and the cache entry under
`key.value` read at completion time, so when the key changed during the
factory's run the value is cached under the new (currently displayed)
key and the stale key's entry is left untouched — a wrong-key cache
write can occur on this path. -/
theorem stale_completion_spec (pub p k : String) (env : ResolveEnv)
    (st : StaticState) (hmiss : getCache st.cache k = none) :
    (∀ json, env.fetchOutcome = .ok json →
      getCache (clientHandler true pub p k env st).1.cache k = some json) ∧
    (∀ (ctx : Ctx) (kNow pNow : String) (r : JSValue) (fsE : Option String)
       (st2 : StaticState),
      getCache (serverPrefetchRun ctx kNow pNow (.ok r) fsE st2).1.cache kNow = some r) ∧
    (∀ r, env.factoryOutcome = .ok r →
      getCache (clientHandler false pub p k env st).1.cache env.keyAtFactoryDone =
        some r ∧
      (clientHandler false pub p k env st).1.result = r ∧
      (env.keyAtFactoryDone ≠ k →
        getCache (clientHandler false pub p k env st).1.cache k = none)) := by
  have hmem : memCache st.cache k = false := by simp [memCache, hmiss]
  refine ⟨?_, ?_, ?_⟩
  · intro json hfo
    simp [clientHandler, hmem, hfo, getCache_setCache_self]
  · intro ctx kNow pNow r fsE st2
    obtain ⟨cl, sst⟩ := ctx
    cases cl <;> cases sst <;> cases fsE <;>
      simp [serverPrefetchRun, writeFile, getCache_setCache_self]
  · intro r hout
    refine ⟨?_, ?_, ?_⟩
    · simp [clientHandler, hmem, onFailureRun, hout, getCache_setCache_self]
    · simp [clientHandler, hmem, onFailureRun, hout]
    · intro hne
      simp [clientHandler, hmem, onFailureRun, hout, setCache, getCache, hne, hmiss]

/-- Witness for C6 (amended): a late fetch keeps its captured key. -/
theorem stale_completion_spec_witness :
    getCache (clientHandler true "/" "1" "post-1"
        ⟨.ok (.str "j"), .ok (.str "j"), "1", "post-1", "post-2"⟩
        ⟨[], .null, [], [], []⟩).1.cache "post-1" = some (.str "j") :=
  ((stale_completion_spec "/" "1" "post-1"
      ⟨.ok (.str "j"), .ok (.str "j"), "1", "post-1", "post-2"⟩
      ⟨[], .null, [], [], []⟩ (by decide)).1 (.str "j") (by decide))

/-- C10: cache-hit detection is membership-based and so independent of
the stored value's truthiness — a cached falsy value still takes the hit
branch with no factory call and no fetch, on the client handler and on
the server setup path alike — while the call-time pre-check seeds the
cache only from a truthy handle value. -/
theorem cache_hit_truthiness_spec (sb : Bool) (pub p k : String)
    (env : ResolveEnv) (st : StaticState) (v : JSValue)
    (hhit : getCache st.cache k = some v) :
    ((clientHandler sb pub p k env st).1.result = v ∧
     (clientHandler sb pub p k env st).2.1 = (⟨[], []⟩ : CallTrace)) ∧
    (∀ (sst : Bool) (cdnURL : Option String) (keyBase p2 : String)
       (env2 : ResolveEnv) (fsError : Option String) (cache0 : Cache) (w : JSValue),
      getCache cache0 (mkKey keyBase p2) = some w →
      (useStaticSetup ⟨false, sst⟩ cdnURL keyBase p2 .null env2 fsError cache0).1.result =
        w ∧
      (useStaticSetup ⟨false, sst⟩ cdnURL keyBase p2 .null env2 fsError cache0).2.1 =
        (⟨[], []⟩ : CallTrace) ∧
      (useStaticSetup ⟨false, sst⟩ cdnURL keyBase p2 .null env2 fsError cache0).2.2.2 =
        false) ∧
    (∀ (c : Cache) (k2 : String) (w : JSValue), truthy w = false →
      preCheckSeed c k2 w = c) := by
  have hmem : memCache st.cache k = true := by simp [memCache, hhit]
  refine ⟨?_, ?_, ?_⟩
  · simp [clientHandler_hit _ _ _ _ _ _ hmem, hhit]
  · intro sst cdnURL keyBase p2 env2 fsError cache0 w hw
    have hmem2 : memCache cache0 (mkKey keyBase p2) = true := by simp [memCache, hw]
    simp [useStaticSetup, preCheckSeed, truthy, hmem2, hw]
  · intro c k2 w hw
    simp [preCheckSeed, hw]

/-- Witness for C10: the cached falsy value `0` still hits. -/
theorem cache_hit_truthiness_spec_witness :
    (clientHandler false "/" "1" "a-1" ⟨.notOk, .ok (.num 5), "1", "a-1", "a-1"⟩
        ⟨[("a-1", .num 0)], .null, [], [], []⟩).1.result = .num 0 ∧
    (clientHandler false "/" "1" "a-1" ⟨.notOk, .ok (.num 5), "1", "a-1", "a-1"⟩
        ⟨[("a-1", .num 0)], .null, [], [], []⟩).2.1 = (⟨[], []⟩ : CallTrace) :=
  (cache_hit_truthiness_spec false "/" "1" "a-1"
    ⟨.notOk, .ok (.num 5), "1", "a-1", "a-1"⟩
    ⟨[("a-1", .num 0)], .null, [], [], []⟩ (.num 0) (by decide)).1

example : mkKey "post" "42" = "post-42" := by decide

example :
    (useStaticSetup ⟨true, false⟩ none "post" "42" .null
      ⟨.notOk, .ok (.obj [("title", "A")]), "42", "post-42", "post-42"⟩ none []).2.1 =
    ⟨[("42", "post-42")], []⟩ := by decide
